import Mathlib

/-!
# LifeConnect Transport Routing & Fleet Optimization Engine — verification

Shallow embedding of `logistic_engine/route_optimizer.py` and of the transport
tracking logic in `backend/routes/logistics_routes.py`, with theorems settling
the frozen claims about the natural-language specification.

Conventions of the embedding:
* Python floats are modelled as `ℚ`; Python `int(x)` (truncation toward zero)
  is `pyInt`.
* The external geodesic-distance library (`geopy.distance.geodesic`) is an
  abstract parameter `geo : ℚ × ℚ → ℚ × ℚ → ℚ` taking the two `(lat, lng)`
  coordinate pairs.
* The Google Maps Directions provider (network I/O) is modelled by a
  `ProviderEnv`: an optional API key plus, for each query, an observable
  outcome (success with raw distance/duration, HTTP error, API-status error,
  timeout, or an exception raised inside the request).  Every theorem
  quantifies over this environment.
* The OR-Tools VRP solver is external; `optimize_organ_transport` takes the
  solver outcome as a parameter (`none` = infeasible/error, which is the
  fallback path exercised by the claims about `fallback_direct`).
-/

namespace LifeConnect

/-- Python `int(x)` applied to a float: truncation toward zero. -/
def pyInt (q : ℚ) : ℤ := if q < 0 then -⌊-q⌋ else ⌊q⌋

/-- `dataclass Location` from `route_optimizer.py`. -/
structure Location where
  name : String
  address : String
  lat : ℚ
  lng : ℚ
  location_type : String
  contact : String := ""
  deriving DecidableEq, Repr

/-- `dataclass OrganTransport` from `route_optimizer.py`. -/
structure OrganTransport where
  organ_id : String
  organ_type : String
  pickup_location : Location
  delivery_location : Location
  harvest_time : ℚ
  max_transport_time : ℤ
  urgency_score : ℤ
  temperature_required : ℚ := 4
  special_requirements : List String := []
  deriving DecidableEq, Repr

/-- `dataclass TransportVehicle` from `route_optimizer.py`. -/
structure TransportVehicle where
  vehicle_id : String
  vehicle_type : String
  current_location : Location
  capacity : ℤ
  speed_kmh : ℚ
  available : Bool := true
  temperature_controlled : Bool := true
  deriving DecidableEq, Repr

/-- Abstract geodesic distance function standing for
`geopy.distance.geodesic((lat1, lng1), (lat2, lng2)).kilometers`. -/
abbrev Geo := ℚ × ℚ → ℚ × ℚ → ℚ

/-- Observable outcome of one Google Maps Directions API query, covering every
branch of `_get_google_directions`: a successful response carrying the raw
distance (meters) and duration (seconds) of `routes[0].legs[0]`, a non-200
HTTP status, a non-OK API status / empty route list, a requests timeout, or
any other exception raised during the request. -/
inductive DirectionsOutcome where
  | ok (distanceMeters : ℚ) (durationSeconds : ℚ)
  | httpError (code : ℤ)
  | apiError (st : String)
  | timeout
  | exception
  deriving DecidableEq, Repr

/-- The routing-provider environment seen by the engine: the optional
`GOOGLE_MAPS_API_KEY` and the per-query provider behaviour (a function of the
origin and destination coordinate pairs and the travel mode sent). -/
structure ProviderEnv where
  googleMapsKey : Option String
  directions : ℚ × ℚ → ℚ × ℚ → String → DirectionsOutcome

/-- `True` exactly on the provider outcomes that do not yield a usable route
(the non-`ok` constructors). -/
def DirectionsOutcome.fails : DirectionsOutcome → Bool
  | .ok _ _ => false
  | _ => true

/-- Python `dict.get(key, default)` over an association list. -/
def dictGet {α : Type} (l : List (String × α)) (k : String) (dflt : α) : α :=
  match l.find? (fun p => p.1 == k) with
  | some p => p.2
  | none => dflt

/-- The `mode_mapping` dict of `_get_google_directions`. -/
def mode_mapping : List (String × String) :=
  [("medical_helicopter", "driving"), ("ambulance", "driving"),
   ("medical_van", "driving"), ("driving", "driving")]

/-- The `speed_map` dict of `_calculate_geodesic_route` (km/h per mode). -/
def speed_map : List (String × ℚ) :=
  [("medical_helicopter", 200), ("ambulance", 60),
   ("medical_van", 50), ("driving", 60)]

/-- `_calculate_geodesic_route`: geodesic distance plus a duration derived
from the mode-keyed average-speed table, the duration truncated by `int()`. -/
def calculate_geodesic_route (geo : Geo) (origin destination : Location)
    (transport_mode : String) : ℚ × ℤ :=
  let distance_km := geo (origin.lat, origin.lng) (destination.lat, destination.lng)
  let avg_speed := dictGet speed_map transport_mode 60
  let duration_min := distance_km / avg_speed * 60
  (distance_km, pyInt duration_min)

/-- `_get_google_directions`: queries the provider with the mapped travel
mode; on success converts meters/seconds to km/minutes and applies the
special-vehicle adjustments; on every failure branch returns the geodesic
fallback. -/
def get_google_directions (env : ProviderEnv) (geo : Geo)
    (origin destination : Location) (transport_mode : String) : ℚ × ℤ :=
  let travel_mode := dictGet mode_mapping transport_mode "driving"
  match env.directions (origin.lat, origin.lng) (destination.lat, destination.lng)
      travel_mode with
  | .ok distanceMeters durationSeconds =>
    let distance_km := distanceMeters / 1000
    let duration_min := durationSeconds / 60
    let pair :=
      if transport_mode = "medical_helicopter" then
        (distance_km * (7 / 10), duration_min * (2 / 5))
      else if transport_mode = "ambulance" then
        (distance_km, duration_min * (7 / 10))
      else
        (distance_km, duration_min)
    (pair.1, pyInt pair.2)
  | _ => calculate_geodesic_route geo origin destination transport_mode

/-- The pair computed by `calculate_distance_and_time`: with a configured key
the Google path (whose failure branches already fall back to geodesic),
otherwise the geodesic path directly. -/
def calc_pair (env : ProviderEnv) (geo : Geo) (origin destination : Location)
    (transport_mode : String) : ℚ × ℤ :=
  if env.googleMapsKey.isSome then
    get_google_directions env geo origin destination transport_mode
  else
    calculate_geodesic_route geo origin destination transport_mode

/-- `calculate_distance_and_time` as its callers see it: an `Except`-valued
interface (a Python function may raise), every branch of which returns
normally — the body's `try/except` routes all provider failures to the
geodesic fallback. -/
def calculate_distance_and_time (env : ProviderEnv) (geo : Geo)
    (origin destination : Location) (transport_mode : String) :
    Except String (ℚ × ℤ) :=
  Except.ok (calc_pair env geo origin destination transport_mode)

/-- `_load_hospital_network`: the fixed registry of hospitals. -/
def hospitals : List Location :=
  [⟨"City General Hospital", "123 Medical Center Dr, Downtown, New York, NY",
      407128 / 10000, -740060 / 10000, "hospital", "+1-555-0123"⟩,
   ⟨"Metro Medical Center", "456 Health Plaza, Uptown, New York, NY",
      407589 / 10000, -739851 / 10000, "hospital", "+1-555-0456"⟩,
   ⟨"Regional Trauma Center", "789 Emergency Ave, Midtown, New York, NY",
      407505 / 10000, -739934 / 10000, "hospital", "+1-555-0789"⟩,
   ⟨"University Hospital", "321 Campus Blvd, University District, New York, NY",
      407282 / 10000, -739942 / 10000, "hospital", "+1-555-0321"⟩,
   ⟨"Specialty Transplant Center", "654 Organ Ave, Medical District, New York, NY",
      407614 / 10000, -739776 / 10000, "hospital", "+1-555-0654"⟩]

/-- `_load_checkpoints`: the fixed registry of monitoring checkpoints. -/
def checkpoints : List Location :=
  [⟨"Highway Junction A", "Interstate 95 & Route 1, New York, NY",
      407305 / 10000, -740031 / 10000, "checkpoint", ""⟩,
   ⟨"Medical District Bridge", "Health Sciences Bridge, New York, NY",
      407421 / 10000, -739897 / 10000, "checkpoint", ""⟩,
   ⟨"Airport Medical Hub", "JFK International Airport, Queens, NY",
      406413 / 10000, -737781 / 10000, "checkpoint", ""⟩,
   ⟨"Emergency Relay Station", "Central Emergency Services, New York, NY",
      407831 / 10000, -739712 / 10000, "checkpoint", ""⟩]

/-- `_initialize_vehicle_fleet`: the fixed vehicle registry. -/
def vehicles : List TransportVehicle :=
  [⟨"MED001", "medical_helicopter", hospitals[0], 2, 200, true, true⟩,
   ⟨"AMB001", "ambulance", hospitals[1], 4, 80, true, true⟩,
   ⟨"AMB002", "ambulance", hospitals[2], 4, 80, true, true⟩,
   ⟨"VAN001", "medical_van", hospitals[3], 6, 60, true, true⟩,
   ⟨"MED002", "medical_helicopter", hospitals[4], 2, 200, true, true⟩]

/-- The `organ_data` dict consumed by the planner and vehicle selector.
Absent keys are `none`; the code reads them with `dict.get(k, default)`. -/
structure OrganData where
  id : Option String := none
  organType : Option String := none
  urgency : Option ℤ := none
  max_hours : Option ℤ := none

/-- The per-vehicle score computed inside `_select_best_vehicle`: closeness
`max(0, 100 − geodesic(vehicle, pickup))`, plus the type bonus (`+50` for a
helicopter when `organ_data.get('urgency', 50) > 90`, else `+30` for an
ambulance), plus `speed_kmh / 10`. -/
def vehicleScore (geo : Geo) (pickup_location : Location) (organ_data : OrganData)
    (vehicle : TransportVehicle) : ℚ :=
  let pickup_distance := geo (vehicle.current_location.lat, vehicle.current_location.lng)
      (pickup_location.lat, pickup_location.lng)
  let urgency := organ_data.urgency.getD 50
  let bonus : ℚ :=
    if urgency > 90 ∧ vehicle.vehicle_type = "medical_helicopter" then 50
    else if vehicle.vehicle_type = "ambulance" then 30
    else 0
  max 0 (100 - pickup_distance) + bonus + vehicle.speed_kmh / 10

/-- The scan loop of `_select_best_vehicle`: starting from
`best = available[0]`, `best_score = 0`, replace the best on a strictly
greater score (so ties keep the earlier vehicle). -/
def selectLoop (score : TransportVehicle → ℚ) :
    List TransportVehicle → TransportVehicle → ℚ → TransportVehicle
  | [], best, _ => best
  | v :: rest, best, best_score =>
    if best_score < score v then selectLoop score rest v (score v)
    else selectLoop score rest best best_score

/-- `_select_best_vehicle`: filters the fleet by availability, falls back to
the first fleet entry when nothing is available (`none` only on an empty
fleet, where Python would raise `IndexError`), otherwise runs the scoring
scan. The `distance` argument is accepted but unused, as in the source. -/
def select_best_vehicle (geo : Geo) (fleet : List TransportVehicle)
    (pickup_location : Location) (distance : ℚ) (organ_data : OrganData) :
    Option TransportVehicle :=
  match fleet.filter (·.available) with
  | [] => fleet.head?
  | a :: rest =>
    some (selectLoop (vehicleScore geo pickup_location organ_data) (a :: rest) a 0)

/-- One route entry of a `RouteSolution` (`route_info` dict in the source). -/
structure RouteInfo where
  vehicle : TransportVehicle
  locations : List Location
  distance_km : ℚ
  time_minutes : ℤ
  organs_transported : List String
  deriving DecidableEq, Repr

/-- The optimizer's result dict.  The empty-batch return carries neither an
`optimization_method` nor a `vehicles_used` key, hence the `Option`s. -/
structure RouteSolution where
  routes : List RouteInfo
  total_distance_km : ℚ
  total_time_minutes : ℤ
  optimization_method : Option String
  vehicles_used : Option ℕ
  deriving DecidableEq, Repr

/-- `_create_fallback_solution`: request `i` is paired positionally with
fleet vehicle `i` (requests beyond the fleet size get no route), each route
being the direct pickup→delivery leg costed by the estimator with the
vehicle's type as transport mode. -/
def create_fallback_solution (env : ProviderEnv) (geo : Geo)
    (fleet : List TransportVehicle) (transport_requests : List OrganTransport) :
    RouteSolution :=
  let routes := (transport_requests.zip fleet).map (fun rv =>
    let request := rv.1
    let vehicle := rv.2
    let dd := calc_pair env geo request.pickup_location request.delivery_location
        vehicle.vehicle_type
    { vehicle := vehicle,
      locations := [request.pickup_location, request.delivery_location],
      distance_km := dd.1,
      time_minutes := dd.2,
      organs_transported := [request.organ_id] : RouteInfo })
  { routes := routes,
    total_distance_km := (routes.map (·.distance_km)).sum,
    total_time_minutes := (routes.map (·.time_minutes)).sum,
    optimization_method := some "fallback_direct",
    vehicles_used := some routes.length }

/-- The duplicate-removal pass of `optimize_organ_transport`: keep the first
occurrence of every `(lat, lng)` key, preserving order. -/
def uniqueLocations : List Location → List (ℚ × ℚ) → List Location
  | [], _ => []
  | loc :: rest, seen =>
    if (loc.lat, loc.lng) ∈ seen then uniqueLocations rest seen
    else loc :: uniqueLocations rest ((loc.lat, loc.lng) :: seen)

/-- `_create_distance_matrix`: the `|L| × |L|` matrix whose diagonal (equal
enumeration indices) is 0 and whose other entries are the estimator's
duration for the ordered pair, with the default `driving` mode. -/
def create_distance_matrix (env : ProviderEnv) (geo : Geo)
    (locations : List Location) : List (List ℤ) :=
  locations.enum.map (fun oi =>
    locations.enum.map (fun dj =>
      if oi.1 = dj.1 then 0
      else (calc_pair env geo oi.2 dj.2 "driving").2))

/-- `optimize_organ_transport`: empty batches short-circuit to the empty
solution (the source's `{"routes": [], "total_time": 0, "total_distance": 0}`
dict); otherwise the deduplicated location list and duration matrix are
built and `_solve_vrp` runs — its external OR-Tools outcome is a parameter,
`none` (infeasible or solver error) selecting `_create_fallback_solution`. -/
def optimize_organ_transport (env : ProviderEnv) (geo : Geo)
    (fleet : List TransportVehicle) (solverOutcome : Option RouteSolution)
    (transport_requests : List OrganTransport) : RouteSolution :=
  if transport_requests.isEmpty then
    { routes := [], total_distance_km := 0, total_time_minutes := 0,
      optimization_method := none, vehicles_used := none }
  else
    let locations := transport_requests.flatMap
      (fun r => [r.pickup_location, r.delivery_location])
    let unique_locations := uniqueLocations locations []
    let _matrix := create_distance_matrix env geo unique_locations
    match solverOutcome with
    | some solution => solution
    | none => create_fallback_solution env geo fleet transport_requests

/-- Case-insensitive substring test, Python's
`hospital_name.lower() in hospital.name.lower()`. -/
def nameMatches (hospital_name : String) (registry_name : String) : Bool :=
  decide ((hospital_name.data.map Char.toLower) <:+: (registry_name.data.map Char.toLower))

/-- `_find_hospital`: first registry hospital whose name contains the query
as a case-insensitive substring. -/
def find_hospital (registry : List Location) (hospital_name : String) :
    Option Location :=
  registry.find? (fun hospital => nameMatches hospital_name hospital.name)

/-- One checkpoint entry of a transport plan's route. -/
structure RouteCheckpoint where
  name : String
  address : String
  lat : ℚ
  lng : ℚ
  deriving DecidableEq, Repr

/-- `_get_route_checkpoints`: keep each registry checkpoint lying roughly
along the route, i.e. whose detour `pickup→checkpoint→delivery` is at most
1.2 times the direct geodesic distance. -/
def get_route_checkpoints (geo : Geo) (registry : List Location)
    (pickup delivery : Location) : List RouteCheckpoint :=
  (registry.filter (fun checkpoint =>
    let pickup_dist := geo (pickup.lat, pickup.lng) (checkpoint.lat, checkpoint.lng)
    let delivery_dist := geo (delivery.lat, delivery.lng) (checkpoint.lat, checkpoint.lng)
    let total_route_dist := geo (pickup.lat, pickup.lng) (delivery.lat, delivery.lng)
    decide (pickup_dist + delivery_dist ≤ total_route_dist * (12 / 10)))).map
    (fun checkpoint => ⟨checkpoint.name, checkpoint.address, checkpoint.lat, checkpoint.lng⟩)

/-- The pickup / delivery leg of a transport plan's route. -/
structure RouteLeg where
  hospital : String
  address : String
  lat : ℚ
  lng : ℚ
  contact : String
  deriving DecidableEq, Repr

/-- The `route` section of a transport plan. -/
structure PlanRoute where
  pickup : RouteLeg
  delivery : RouteLeg
  distance_km : ℚ
  estimated_duration_minutes : ℤ
  checkpoints : List RouteCheckpoint
  deriving DecidableEq, Repr

/-- The `vehicle` section of a transport plan. -/
structure PlanVehicle where
  id : String
  vehicle_type : String
  speed_kmh : ℚ
  temperature_controlled : Bool
  deriving DecidableEq, Repr

/-- The `schedule` section of a transport plan (times are minute
timestamps). -/
structure PlanSchedule where
  pickup_time : ℚ
  estimated_delivery : ℚ
  max_transport_time_hours : ℤ
  buffer_time_minutes : ℤ
  deriving DecidableEq, Repr

/-- The transport-plan record assembled by `create_transport_plan`. -/
structure TransportPlan where
  organ_id : String
  organ_type : String
  route : PlanRoute
  vehicle : PlanVehicle
  schedule : PlanSchedule
  status : String
  deriving DecidableEq, Repr

/-- `create_transport_plan`: resolve both hospital names
(`raise ValueError("Hospital not found in network")` when either fails),
estimate the route, select the best vehicle (an empty fleet would make
Python's `vehicles[0]` raise `IndexError`, modelled by the second error
branch), and assemble the plan.  `now` is the current minute timestamp. -/
def create_transport_plan (env : ProviderEnv) (geo : Geo)
    (registry : List Location) (fleet : List TransportVehicle)
    (checkpoint_registry : List Location) (now : ℚ) (organ_data : OrganData)
    (pickup_hospital delivery_hospital : String) :
    Except String TransportPlan :=
  match find_hospital registry pickup_hospital,
      find_hospital registry delivery_hospital with
  | some pickup_loc, some delivery_loc =>
    match calculate_distance_and_time env geo pickup_loc delivery_loc "driving" with
    | .error e => .error e
    | .ok (distance, duration) =>
      match select_best_vehicle geo fleet pickup_loc distance organ_data with
      | none => .error "list index out of range"
      | some best_vehicle =>
        .ok { organ_id := organ_data.id.getD ("ORG_" ++ toString (pyInt now)),
              organ_type := organ_data.organType.getD "unknown",
              route :=
                { pickup := ⟨pickup_loc.name, pickup_loc.address, pickup_loc.lat,
                    pickup_loc.lng, pickup_loc.contact⟩,
                  delivery := ⟨delivery_loc.name, delivery_loc.address, delivery_loc.lat,
                    delivery_loc.lng, delivery_loc.contact⟩,
                  distance_km := distance,
                  estimated_duration_minutes := duration,
                  checkpoints := get_route_checkpoints geo checkpoint_registry
                    pickup_loc delivery_loc },
              vehicle := ⟨best_vehicle.vehicle_id, best_vehicle.vehicle_type,
                best_vehicle.speed_kmh, best_vehicle.temperature_controlled⟩,
              schedule :=
                { pickup_time := now,
                  estimated_delivery := now + duration,
                  max_transport_time_hours := organ_data.max_hours.getD 8,
                  buffer_time_minutes := 30 },
              status := "planned" }
  | _, _ => .error "Hospital not found in network"

/-- The `risk_assessment` section of a route report. -/
structure RiskAssessment where
  time_risk : String
  weather_risk : String
  traffic_risk : String
  overall_risk : String
  deriving DecidableEq, Repr

/-- The route report produced by `generate_route_report` (summary and risk
fields; the static recommendation / emergency text is omitted). -/
structure RouteReport where
  organ_id : String
  total_distance : ℚ
  total_time : ℤ
  vehicle_type : String
  efficiency_score : ℚ
  risk_assessment : RiskAssessment
  deriving DecidableEq, Repr

/-- `generate_route_report`: summary plus the risk assessment, whose
`time_risk` thresholds at 240 minutes, `weather_risk`/`traffic_risk` are the
fixed placeholders `"Low"`/`"Medium"`, and `overall_risk` is the constant
`"Low"`. -/
def generate_route_report (transport_plan : TransportPlan) : RouteReport :=
  { organ_id := transport_plan.organ_id,
    total_distance := transport_plan.route.distance_km,
    total_time := transport_plan.route.estimated_duration_minutes,
    vehicle_type := transport_plan.vehicle.vehicle_type,
    efficiency_score :=
      min 100 (100 - (transport_plan.route.estimated_duration_minutes : ℚ) / 10),
    risk_assessment :=
      { time_risk :=
          if transport_plan.route.estimated_duration_minutes < 240 then "Low"
          else "Medium",
        weather_risk := "Low",
        traffic_risk := "Medium",
        overall_risk := "Low" } }

/-- A stored transport record of `backend/routes/logistics_routes.py`
(`transport_db_sim` entry), restricted to the fields the tracker reads.
Timestamps are minute values; `started_at` is absent until the transport is
started. -/
structure StoredTransport where
  status : String
  created_at : ℚ
  started_at : Option ℚ
  estimated_duration : ℤ
  deriving DecidableEq, Repr

/-- The progress percentage computed by `track_transport` (and equivalently
by the in-progress branch of `get_active_transports`): 0 unless the record
is `in_progress` with a start time and a positive estimated duration, in
which case `min(95, int(elapsed / duration * 100))`. -/
def trackProgress (record : StoredTransport) (now : ℚ) : ℤ :=
  if record.status = "in_progress" then
    match record.started_at with
    | some started_at =>
      let elapsed_minutes := now - started_at
      if record.estimated_duration > 0 then
        min 95 (pyInt (elapsed_minutes / (record.estimated_duration : ℚ) * 100))
      else 0
    | none => 0
  else 0

/-- The tracking response of `track_transport` (fields relevant to the
claims). -/
structure TrackingData where
  status : String
  progress : ℤ
  estimated_arrival : ℚ
  deriving DecidableEq, Repr

/-- `track_transport` applied to a found record: echoes the status, computes
the progress percentage, and derives the arrival estimate from the start
(or creation) time plus the estimated duration. -/
def track_transport (record : StoredTransport) (now : ℚ) : TrackingData :=
  { status := record.status,
    progress := trackProgress record now,
    estimated_arrival :=
      (record.started_at.getD record.created_at) + (record.estimated_duration : ℚ) }

/-! ## Helper lemmas -/

theorem pyInt_of_nonneg {q : ℚ} (h : 0 ≤ q) : pyInt q = ⌊q⌋ := by
  unfold pyInt
  rw [if_neg (not_lt.mpr h)]

theorem pyInt_nonneg {q : ℚ} (h : 0 ≤ q) : 0 ≤ pyInt q := by
  rw [pyInt_of_nonneg h]
  exact Int.floor_nonneg.mpr h

/-- Every transport mode is sent to the provider as `driving`. -/
theorem dictGet_mode_mapping (transport_mode : String) :
    dictGet mode_mapping transport_mode "driving" = "driving" := by
  unfold dictGet
  cases h : mode_mapping.find? (fun p => p.1 == transport_mode) with
  | none => rfl
  | some p =>
    have hp := List.mem_of_find?_eq_some h
    fin_cases hp <;> rfl

/-- The specification's speed table, stated by cases as the claim words it:
200 km/h for a helicopter, 60 for an ambulance, 50 for a van, 60 for any
other mode. -/
def specSpeed (transport_mode : String) : ℚ :=
  if transport_mode = "medical_helicopter" then 200
  else if transport_mode = "ambulance" then 60
  else if transport_mode = "medical_van" then 50
  else 60

theorem dictGet_speed_map (transport_mode : String) :
    dictGet speed_map transport_mode 60 = specSpeed transport_mode := by
  unfold dictGet speed_map specSpeed
  by_cases h1 : transport_mode = "medical_helicopter"
  · subst h1; rfl
  · rw [List.find?_cons_of_neg _ (by simp only [beq_iff_eq]; exact fun h => h1 h.symm)]
    by_cases h2 : transport_mode = "ambulance"
    · subst h2; rfl
    · rw [List.find?_cons_of_neg _ (by simp only [beq_iff_eq]; exact fun h => h2 h.symm)]
      by_cases h3 : transport_mode = "medical_van"
      · subst h3; rfl
      · rw [List.find?_cons_of_neg _ (by simp only [beq_iff_eq]; exact fun h => h3 h.symm)]
        by_cases h4 : transport_mode = "driving"
        · subst h4; rfl
        · rw [List.find?_cons_of_neg _ (by simp only [beq_iff_eq]; exact fun h => h4 h.symm)]
          simp [if_neg h1, if_neg h2, if_neg h3]

/-! ## C5 — empty batch -/

/-- C5: `optimize_organ_transport` applied to an empty request list returns
the empty solution — no routes, zero total distance, zero total time — and
does so uniformly in the solver outcome, i.e. without invoking the VRP
solver. -/
theorem c5_empty_batch (env : ProviderEnv) (geo : Geo)
    (fleet : List TransportVehicle) (s₁ s₂ : Option RouteSolution) :
    optimize_organ_transport env geo fleet s₁ [] =
      { routes := [], total_distance_km := 0, total_time_minutes := 0,
        optimization_method := none, vehicles_used := none } ∧
    optimize_organ_transport env geo fleet s₁ [] =
      optimize_organ_transport env geo fleet s₂ [] :=
  ⟨rfl, rfl⟩

/-! ## C2 — geodesic fallback formula -/

/-- Whenever the provider is unavailable — no API key, or a failing query
outcome — the estimator's pair is the geodesic fallback's. -/
theorem calc_pair_fallback (env : ProviderEnv) (geo : Geo)
    (origin destination : Location) (transport_mode : String)
    (hunavail : env.googleMapsKey = none ∨
      (env.directions (origin.lat, origin.lng) (destination.lat, destination.lng)
        "driving").fails = true) :
    calc_pair env geo origin destination transport_mode =
      calculate_geodesic_route geo origin destination transport_mode := by
  unfold calc_pair
  rcases hkey : env.googleMapsKey with _ | key
  · simp
  · rw [hkey] at hunavail
    simp only [Option.isSome_some, if_pos]
    unfold get_google_directions
    rw [dictGet_mode_mapping]
    rcases hunavail with h | h
    · exact absurd h (by simp)
    · cases hout : env.directions (origin.lat, origin.lng)
          (destination.lat, destination.lng) "driving" <;>
        simp_all [DirectionsOutcome.fails]

/-- C2: when the routing provider is unavailable (no key configured, or the
query fails), the estimator returns the geodesic distance between the two
coordinate pairs as the distance in km and a duration of
`(distance / speed) * 60` minutes truncated to an integer, where the speed
is 200 km/h for `medical_helicopter`, 60 for `ambulance`, 50 for
`medical_van`, and 60 for any other mode. -/
theorem c2_geodesic_estimate (env : ProviderEnv) (geo : Geo)
    (origin destination : Location) (transport_mode : String)
    (hunavail : env.googleMapsKey = none ∨
      (env.directions (origin.lat, origin.lng) (destination.lat, destination.lng)
        "driving").fails = true) :
    calculate_distance_and_time env geo origin destination transport_mode =
      Except.ok (geo (origin.lat, origin.lng) (destination.lat, destination.lng),
        pyInt (geo (origin.lat, origin.lng) (destination.lat, destination.lng) /
          specSpeed transport_mode * 60)) := by
  unfold calculate_distance_and_time
  rw [calc_pair_fallback env geo origin destination transport_mode hunavail]
  unfold calculate_geodesic_route
  rw [dictGet_speed_map]

/-- Witness for C2 at a concrete provider-less environment: 1 km between the
first two registry hospitals under a unit distance function gives a
1-minute `driving` estimate. -/
theorem c2_geodesic_estimate_witness :
    calculate_distance_and_time ⟨none, fun _ _ _ => .timeout⟩ (fun _ _ => 1)
        hospitals[0] hospitals[1] "driving" =
      Except.ok ((1 : ℚ), pyInt ((1 : ℚ) / specSpeed "driving" * 60)) :=
  c2_geodesic_estimate ⟨none, fun _ _ _ => .timeout⟩ (fun _ _ => 1)
    hospitals[0] hospitals[1] "driving" (Or.inl rfl)

/-! ## C3 — provider failures absorbed -/

/-- C3: `calculate_distance_and_time` never surfaces an error — it always
produces a usable pair — and on every provider failure (missing key, or a
query outcome that is an exception, timeout, HTTP error or API error) the
returned pair is exactly the geodesic fallback's. -/
theorem c3_failures_absorbed (env : ProviderEnv) (geo : Geo)
    (origin destination : Location) (transport_mode : String) :
    (∃ p, calculate_distance_and_time env geo origin destination transport_mode =
      Except.ok p) ∧
    ((env.googleMapsKey = none ∨
        (env.directions (origin.lat, origin.lng) (destination.lat, destination.lng)
          "driving").fails = true) →
      calculate_distance_and_time env geo origin destination transport_mode =
        Except.ok (calculate_geodesic_route geo origin destination transport_mode)) := by
  refine ⟨⟨_, rfl⟩, fun hunavail => ?_⟩
  unfold calculate_distance_and_time
  rw [calc_pair_fallback env geo origin destination transport_mode hunavail]

/-- Witness for C3: a keyed environment whose every query times out yields
the geodesic fallback pair. -/
theorem c3_failures_absorbed_witness :
    calculate_distance_and_time ⟨some "KEY", fun _ _ _ => .timeout⟩ (fun _ _ => 1)
        hospitals[0] hospitals[1] "ambulance" =
      Except.ok (calculate_geodesic_route (fun _ _ => 1)
        hospitals[0] hospitals[1] "ambulance") :=
  (c3_failures_absorbed ⟨some "KEY", fun _ _ _ => .timeout⟩ (fun _ _ => 1)
    hospitals[0] hospitals[1] "ambulance").2 (Or.inr rfl)

/-! ## C7 — tracking progress -/

theorem trackProgress_le_95 (record : StoredTransport) (now : ℚ) :
    trackProgress record now ≤ 95 := by
  unfold trackProgress
  split
  · cases record.started_at with
    | none => simp
    | some started_at =>
      simp only
      split
      · exact min_le_left _ _
      · simp
  · simp

/-- C7: for a record being tracked, the progress percentage is
`min(95, floor(elapsed / estimatedDuration * 100))` while the status is
`in_progress` (with a start time, a positive duration and a non-negative
elapsed time), hence never exceeds 95 in that state; it is 0 while the
status is `planned`; and a value of 100 can only occur for an explicit
`delivered` status. -/
theorem c7_track_progress (record : StoredTransport) (now started : ℚ) :
    (record.status = "in_progress" → (track_transport record now).progress ≤ 95) ∧
    (record.status = "in_progress" → record.started_at = some started →
      0 < record.estimated_duration → started ≤ now →
      (track_transport record now).progress =
        min 95 ⌊(now - started) / (record.estimated_duration : ℚ) * 100⌋) ∧
    (record.status = "planned" → (track_transport record now).progress = 0) ∧
    ((track_transport record now).progress = 100 → record.status = "delivered") := by
  refine ⟨fun _ => trackProgress_le_95 record now, ?_, ?_, ?_⟩
  · intro hst hstart hdur helapsed
    show trackProgress record now = _
    unfold trackProgress
    rw [if_pos hst, hstart]
    simp only [if_pos hdur]
    congr 1
    refine pyInt_of_nonneg ?_
    have h1 : (0 : ℚ) < (record.estimated_duration : ℚ) := by exact_mod_cast hdur
    have h2 : (0 : ℚ) ≤ (now - started) / (record.estimated_duration : ℚ) :=
      div_nonneg (by linarith) h1.le
    positivity
  · intro hst
    show trackProgress record now = 0
    unfold trackProgress
    rw [if_neg (by rw [hst]; decide)]
  · intro h
    have := trackProgress_le_95 record now
    have : (100 : ℤ) ≤ 95 := by
      calc (100 : ℤ) = (track_transport record now).progress := h.symm
        _ ≤ 95 := trackProgress_le_95 record now
    omega

/-- Witness for C7: an in-progress transport started at minute 0 with a
60-minute estimate is at 50% after 30 minutes, and a planned transport is at
0%. -/
theorem c7_track_progress_witness :
    (track_transport ⟨"in_progress", 0, some 0, 60⟩ 30).progress =
      min 95 ⌊((30 : ℚ) - 0) / ((60 : ℤ) : ℚ) * 100⌋ ∧
    (track_transport ⟨"planned", 0, none, 60⟩ 5).progress = 0 :=
  ⟨(c7_track_progress ⟨"in_progress", 0, some 0, 60⟩ 30 0).2.1 rfl rfl
      (by decide) (by norm_num),
    (c7_track_progress ⟨"planned", 0, none, 60⟩ 5 0).2.2.1 rfl⟩

/-! ## C8 — risk assessment -/

/-- The ordinal risk scale Low < Medium < High, as the specification words
it. -/
def riskLevel (risk : String) : ℕ :=
  if risk = "High" then 2 else if risk = "Medium" then 1 else 0

/-- Pointwise maximum of two risks on the ordinal scale. -/
def riskMax (a b : String) : String :=
  if riskLevel a < riskLevel b then b else a

/-- The overall risk the specification claims: the pointwise maximum of the
time, weather and traffic components. -/
def claimedOverallRisk (risk : RiskAssessment) : String :=
  riskMax (riskMax risk.time_risk risk.weather_risk) risk.traffic_risk

/-- C8 counterexample: for a 100-minute plan the report's components are
time `Low`, weather `Low`, traffic `Medium`, whose pointwise maximum is
`Medium`, yet the report's `overall_risk` is the constant `Low` — so
`overall_risk` is not the pointwise maximum of the components. -/
theorem c8_counterexample :
    (generate_route_report
        ⟨"ORG_TEST", "heart",
          ⟨⟨"City General Hospital", "a", 0, 0, "c"⟩,
            ⟨"Metro Medical Center", "b", 1, 1, "c"⟩, 50, 100, []⟩,
          ⟨"MED001", "medical_helicopter", 200, true⟩,
          ⟨0, 100, 8, 30⟩, "planned"⟩).risk_assessment.overall_risk = "Low" ∧
    claimedOverallRisk
      (generate_route_report
        ⟨"ORG_TEST", "heart",
          ⟨⟨"City General Hospital", "a", 0, 0, "c"⟩,
            ⟨"Metro Medical Center", "b", 1, 1, "c"⟩, 50, 100, []⟩,
          ⟨"MED001", "medical_helicopter", 200, true⟩,
          ⟨0, 100, 8, 30⟩, "planned"⟩).risk_assessment = "Medium" ∧
    ("Low" : String) ≠ "Medium" :=
  ⟨rfl, rfl, by decide⟩

/-- C8 amended: `time_risk` is `Low` exactly when the estimated duration is
under 240 minutes and `Medium` otherwise; `weather_risk` is the fixed
placeholder `Low` and `traffic_risk` the fixed placeholder `Medium`; and
`overall_risk` is the constant `Low` — it is not computed as the pointwise
maximum of the components. -/
theorem c8_amended (transport_plan : TransportPlan) :
    ((generate_route_report transport_plan).risk_assessment.time_risk = "Low" ↔
      transport_plan.route.estimated_duration_minutes < 240) ∧
    ((generate_route_report transport_plan).risk_assessment.time_risk = "Medium" ↔
      ¬ transport_plan.route.estimated_duration_minutes < 240) ∧
    (generate_route_report transport_plan).risk_assessment.weather_risk = "Low" ∧
    (generate_route_report transport_plan).risk_assessment.traffic_risk = "Medium" ∧
    (generate_route_report transport_plan).risk_assessment.overall_risk = "Low" := by
  by_cases h : transport_plan.route.estimated_duration_minutes < 240 <;>
    simp [generate_route_report, h]

/-! ## C10 — fallback assigns vehicles positionally -/

/-- C10: on the fallback-direct path, request `i` (for every `i` below
`min(|requests|, |fleet|)`) is assigned the `i`-th fleet vehicle purely by
position — the `available` flag is never consulted, so the theorem holds
with no availability hypothesis and a vehicle marked unavailable is still
assigned its route. -/
theorem c10_fallback_positional (env : ProviderEnv) (geo : Geo)
    (fleet : List TransportVehicle) (transport_requests : List OrganTransport)
    (i : ℕ) (h1 : i < transport_requests.length) (h2 : i < fleet.length) :
    (create_fallback_solution env geo fleet transport_requests).optimization_method =
      some "fallback_direct" ∧
    (create_fallback_solution env geo fleet transport_requests).routes.length =
      min transport_requests.length fleet.length ∧
    ∃ r, (create_fallback_solution env geo fleet transport_requests).routes[i]? =
        some r ∧
      r.vehicle = fleet[i] ∧
      r.organs_transported = [transport_requests[i].organ_id] := by
  refine ⟨rfl, ?_, ?_⟩
  · simp [create_fallback_solution]
  · have hz : i < (transport_requests.zip fleet).length := by
      simp [List.length_zip]; omega
    have hroutes :
        (create_fallback_solution env geo fleet transport_requests).routes[i]? =
          some { vehicle := fleet[i],
                 locations := [transport_requests[i].pickup_location,
                   transport_requests[i].delivery_location],
                 distance_km := (calc_pair env geo transport_requests[i].pickup_location
                   transport_requests[i].delivery_location fleet[i].vehicle_type).1,
                 time_minutes := (calc_pair env geo transport_requests[i].pickup_location
                   transport_requests[i].delivery_location fleet[i].vehicle_type).2,
                 organs_transported := [transport_requests[i].organ_id] } := by
      show (List.map _ (transport_requests.zip fleet))[i]? = _
      rw [List.getElem?_map, List.getElem?_eq_getElem hz, List.getElem_zip]
      rfl
    exact ⟨_, hroutes, rfl, rfl⟩

/-- Witness for C10: a one-request batch over a single-vehicle fleet whose
vehicle is marked unavailable still gets that vehicle assigned. -/
theorem c10_fallback_positional_witness :
    ∃ r, (create_fallback_solution ⟨none, fun _ _ _ => .timeout⟩ (fun _ _ => 1)
        [⟨"AMB009", "ambulance", hospitals[0], 4, 80, false, true⟩]
        [⟨"ORG_001", "heart", hospitals[0], hospitals[1], 0, 8, 95, 4, []⟩]).routes[0]? =
      some r ∧
      r.vehicle = ⟨"AMB009", "ambulance", hospitals[0], 4, 80, false, true⟩ ∧
      r.organs_transported = ["ORG_001"] := by
  have h := (c10_fallback_positional ⟨none, fun _ _ _ => .timeout⟩ (fun _ _ => 1)
    [⟨"AMB009", "ambulance", hospitals[0], 4, 80, false, true⟩]
    [⟨"ORG_001", "heart", hospitals[0], hospitals[1], 0, 8, 95, 4, []⟩]
    0 (by decide) (by decide)).2.2
  simpa using h

/-! ## C1 — organ conservation -/

/-- Provider environment with no API key and an unreachable provider. -/
def envNoKey : ProviderEnv := ⟨none, fun _ _ _ => .timeout⟩

/-- A unit distance function, used to instantiate the abstract geodesic
distance at concrete inputs. -/
def geoOne : Geo := fun _ _ => 1

/-- A transport request between two registry hospitals. -/
def sampleRequest (oid : String) (pickup delivery : Location) : OrganTransport :=
  ⟨oid, "heart", pickup, delivery, 0, 8, 95, 4, []⟩

/-- Six concurrent requests — one more than the five-vehicle registry
fleet. -/
def batch6 : List OrganTransport :=
  [sampleRequest "ORG_001" hospitals[0] hospitals[1],
   sampleRequest "ORG_002" hospitals[1] hospitals[2],
   sampleRequest "ORG_003" hospitals[2] hospitals[3],
   sampleRequest "ORG_004" hospitals[3] hospitals[4],
   sampleRequest "ORG_005" hospitals[4] hospitals[0],
   sampleRequest "ORG_006" hospitals[0] hospitals[2]]

/-- C1 counterexample: a non-empty batch of six requests over the
five-vehicle registry fleet, routed via `fallback_direct` (solver
infeasible): the sixth organ `ORG_006` appears in the requested batch but in
zero routes of the returned solution — it is silently dropped, refuting
"each requested organ appears in exactly one route". -/
theorem c1_counterexample :
    batch6 ≠ [] ∧
    "ORG_006" ∈ batch6.map OrganTransport.organ_id ∧
    (optimize_organ_transport envNoKey geoOne vehicles none batch6).routes.countP
      (fun r => decide ("ORG_006" ∈ r.organs_transported)) = 0 := by
  refine ⟨by decide, by decide, ?_⟩
  rfl

theorem countP_eq_one_of_nodup {l : List String} {a : String}
    (hnd : l.Nodup) (ha : a ∈ l) :
    l.countP (fun x => decide (a = x)) = 1 := by
  induction l with
  | nil => cases ha
  | cons b t ih =>
    rw [List.countP_cons]
    rcases List.mem_cons.mp ha with hab | hat
    · subst hab
      have hnotin : a ∉ t := (List.nodup_cons.mp hnd).1
      have h0 : t.countP (fun x => decide (a = x)) = 0 :=
        List.countP_eq_zero.mpr (fun x hx hax => hnotin (by
          rw [decide_eq_true_eq] at hax
          rwa [hax]))
      simp [h0]
    · have hab : a ≠ b := by
        intro h
        subst h
        exact (List.nodup_cons.mp hnd).1 hat
      rw [ih (List.nodup_cons.mp hnd).2 hat]
      simp [hab]

/-- C1 amended: restricted to the `fallback_direct` path and to batches that
do not exceed the fleet size (the counterexample shows larger batches drop
the excess requests), organ conservation holds: every requested `organ_id`
of a non-empty batch with pairwise-distinct ids appears in the
`organs_transported` list of exactly one route. -/
theorem c1_amended (env : ProviderEnv) (geo : Geo)
    (fleet : List TransportVehicle) (transport_requests : List OrganTransport)
    (hne : transport_requests ≠ [])
    (hnd : (transport_requests.map OrganTransport.organ_id).Nodup)
    (hlen : transport_requests.length ≤ fleet.length)
    (oid : String) (hmem : oid ∈ transport_requests.map OrganTransport.organ_id) :
    (optimize_organ_transport env geo fleet none transport_requests).routes.countP
      (fun r => decide (oid ∈ r.organs_transported)) = 1 := by
  have hopt : optimize_organ_transport env geo fleet none transport_requests =
      create_fallback_solution env geo fleet transport_requests := by
    unfold optimize_organ_transport
    rw [if_neg (by simp [List.isEmpty_iff, hne])]
  rw [hopt]
  show ((transport_requests.zip fleet).map _).countP _ = 1
  rw [List.countP_map]
  have hstep : ∀ rv : OrganTransport × TransportVehicle,
      ((fun r : RouteInfo => decide (oid ∈ r.organs_transported)) ∘
        (fun rv : OrganTransport × TransportVehicle =>
          ({ vehicle := rv.2,
             locations := [rv.1.pickup_location, rv.1.delivery_location],
             distance_km := (calc_pair env geo rv.1.pickup_location
               rv.1.delivery_location rv.2.vehicle_type).1,
             time_minutes := (calc_pair env geo rv.1.pickup_location
               rv.1.delivery_location rv.2.vehicle_type).2,
             organs_transported := [rv.1.organ_id] } : RouteInfo))) rv =
        (fun rv : OrganTransport × TransportVehicle =>
          decide (oid = rv.1.organ_id)) rv := by
    intro rv
    simp [Function.comp]
  rw [List.countP_congr (fun rv _ => by rw [hstep rv])]
  have hfst : ((transport_requests.zip fleet).map Prod.fst) = transport_requests :=
    List.map_fst_zip _ _ hlen
  have : (transport_requests.zip fleet).countP
      (fun rv => decide (oid = rv.1.organ_id)) =
      transport_requests.countP (fun r => decide (oid = r.organ_id)) := by
    conv_rhs => rw [← hfst]
    rw [List.countP_map]
    rfl
  rw [this]
  have : transport_requests.countP (fun r => decide (oid = r.organ_id)) =
      (transport_requests.map OrganTransport.organ_id).countP
        (fun x => decide (oid = x)) := by
    rw [List.countP_map]
    rfl
  rw [this]
  exact countP_eq_one_of_nodup hnd hmem

/-- A two-request batch inside the fleet bound, for the C1 witness. -/
def batch2 : List OrganTransport :=
  [sampleRequest "ORG_001" hospitals[0] hospitals[1],
   sampleRequest "ORG_002" hospitals[1] hospitals[2]]

/-- Witness for the amended C1: in a two-request batch over the registry
fleet, `ORG_001` appears in exactly one route of the fallback solution. -/
theorem c1_amended_witness :
    (optimize_organ_transport envNoKey geoOne vehicles none batch2).routes.countP
      (fun r => decide ("ORG_001" ∈ r.organs_transported)) = 1 :=
  c1_amended envNoKey geoOne vehicles batch2 (by decide) (by decide)
    (by decide) "ORG_001" (by decide)

/-! ## C9 — duration matrix -/

/-- A provider environment whose directions service reports different
durations for the two orientations of the same pair of points. -/
def envAsym : ProviderEnv :=
  ⟨some "KEY", fun o _ _ => if o = ((0 : ℚ), (0 : ℚ)) then .ok 1000 600 else .ok 2000 1200⟩

/-- Test location at the origin. -/
def locA : Location := ⟨"A", "a", 0, 0, "test", ""⟩

/-- Test location at (1, 1). -/
def locB : Location := ⟨"B", "b", 1, 1, "test", ""⟩

/-- Every entry of the duration matrix: 0 on the diagonal, the estimator's
duration for the ordered pair elsewhere. -/
theorem matrix_entry (env : ProviderEnv) (geo : Geo) (locations : List Location)
    (i j : ℕ) (hi : i < locations.length) (hj : j < locations.length) :
    (create_distance_matrix env geo locations)[i]?.bind (fun row => row[j]?) =
      some (if i = j then 0
        else (calc_pair env geo locations[i] locations[j] "driving").2) := by
  have hi' : i < locations.enum.length := by simpa [List.enum_length] using hi
  have hj' : j < locations.enum.length := by simpa [List.enum_length] using hj
  unfold create_distance_matrix
  rw [List.getElem?_map, List.getElem?_eq_getElem hi']
  simp only [Option.map_some', Option.some_bind]
  rw [List.getElem?_map, List.getElem?_eq_getElem hj']
  rw [List.getElem_enum, List.getElem_enum]
  rfl

theorem matrix_row_length (env : ProviderEnv) (geo : Geo)
    (locations : List Location) :
    ∀ row ∈ create_distance_matrix env geo locations,
      row.length = locations.length := by
  intro row hrow
  unfold create_distance_matrix at hrow
  obtain ⟨p, _, rfl⟩ := List.mem_map.mp hrow
  simp [List.enum_length]

/-- C9 counterexample: with a configured provider whose reported durations
depend on the direction of travel, the duration matrix of the two
deduplicated locations `[locA, locB]` has entry (0, 1) equal to 10 minutes
but entry (1, 0) equal to 20 minutes — refuting the claimed symmetry. -/
theorem c9_counterexample :
    (create_distance_matrix envAsym geoOne [locA, locB])[0]?.bind
        (fun row => row[1]?) = some 10 ∧
    (create_distance_matrix envAsym geoOne [locA, locB])[1]?.bind
        (fun row => row[0]?) = some 20 ∧
    (10 : ℤ) ≠ 20 := by
  have h01 := matrix_entry envAsym geoOne [locA, locB] 0 1 (by norm_num) (by norm_num)
  have h10 := matrix_entry envAsym geoOne [locA, locB] 1 0 (by norm_num) (by norm_num)
  rw [if_neg (by decide : ¬ (0 = 1))] at h01
  rw [if_neg (by decide : ¬ (1 = 0))] at h10
  refine ⟨?_, ?_, by decide⟩
  · rw [h01]
    congr 1
    show (calc_pair envAsym geoOne locA locB "driving").2 = 10
    simp only [calc_pair, get_google_directions, envAsym, dictGet_mode_mapping,
      locA, locB]
    norm_num
    rw [if_neg (show ¬ ("driving" = "medical_helicopter") by decide),
        if_neg (show ¬ ("driving" = "ambulance") by decide)]
    norm_num [pyInt]
  · rw [h10]
    congr 1
    show (calc_pair envAsym geoOne locB locA "driving").2 = 20
    simp only [calc_pair, get_google_directions, envAsym, dictGet_mode_mapping,
      locA, locB]
    norm_num
    rw [if_neg (show ¬ ("driving" = "medical_helicopter") by decide),
        if_neg (show ¬ ("driving" = "ambulance") by decide)]
    norm_num [pyInt]

/-- C9 amended: the duration matrix is square of size `|L| × |L|`, every
diagonal entry is 0, every off-diagonal entry `(i, j)` is the estimator's
duration for the ordered pair `(L[i], L[j])`, and the matrix is symmetric
whenever the underlying estimate is orientation-independent — in particular
on the provider-less geodesic path with a symmetric distance function.  (The
counterexample shows symmetry fails for a configured provider reporting
direction-dependent durations, so the unconditional symmetry of the original
claim is restricted to this hypothesis.) -/
theorem c9_amended (env : ProviderEnv) (geo : Geo) (locations : List Location) :
    (create_distance_matrix env geo locations).length = locations.length ∧
    (∀ row ∈ create_distance_matrix env geo locations,
      row.length = locations.length) ∧
    (∀ i, i < locations.length →
      (create_distance_matrix env geo locations)[i]?.bind (fun row => row[i]?) =
        some 0) ∧
    (∀ i j (hi : i < locations.length) (hj : j < locations.length), i ≠ j →
      (create_distance_matrix env geo locations)[i]?.bind (fun row => row[j]?) =
        some (calc_pair env geo locations[i] locations[j] "driving").2) ∧
    ((env.googleMapsKey = none ∧ ∀ p q, geo p q = geo q p) →
      ∀ i j : ℕ,
        (create_distance_matrix env geo locations)[i]?.bind (fun row => row[j]?) =
        (create_distance_matrix env geo locations)[j]?.bind (fun row => row[i]?)) := by
  have hlen : (create_distance_matrix env geo locations).length = locations.length := by
    simp [create_distance_matrix, List.enum_length]
  refine ⟨hlen, matrix_row_length env geo locations, ?_, ?_, ?_⟩
  · intro i hi
    rw [matrix_entry env geo locations i i hi hi, if_pos rfl]
  · intro i j hi hj hij
    rw [matrix_entry env geo locations i j hi hj, if_neg hij]
  · rintro ⟨hkey, hsym⟩ i j
    by_cases hi : i < locations.length
    · by_cases hj : j < locations.length
      · rw [matrix_entry env geo locations i j hi hj,
          matrix_entry env geo locations j i hj hi]
        by_cases hij : i = j
        · subst hij; rfl
        · rw [if_neg hij, if_neg (Ne.symm hij)]
          unfold calc_pair
          rw [hkey]
          simp only [Option.isSome_none, Bool.false_eq_true, if_false]
          unfold calculate_geodesic_route
          rw [hsym (locations[i].lat, locations[i].lng)
            (locations[j].lat, locations[j].lng)]
      · have hiM : i < (create_distance_matrix env geo locations).length := by omega
        have hjM : (create_distance_matrix env geo locations).length ≤ j := by omega
        rw [List.getElem?_eq_getElem hiM, List.getElem?_eq_none hjM]
        simp only [Option.some_bind, Option.none_bind]
        exact List.getElem?_eq_none (by
          rw [matrix_row_length env geo locations _ (List.getElem_mem hiM)]
          omega)
    · have hiM : (create_distance_matrix env geo locations).length ≤ i := by omega
      rw [List.getElem?_eq_none hiM]
      simp only [Option.none_bind]
      by_cases hj : j < locations.length
      · have hjM : j < (create_distance_matrix env geo locations).length := by omega
        rw [List.getElem?_eq_getElem hjM]
        simp only [Option.some_bind]
        exact (List.getElem?_eq_none (by
          rw [matrix_row_length env geo locations _ (List.getElem_mem hjM)]
          omega)).symm
      · have hjM : (create_distance_matrix env geo locations).length ≤ j := by omega
        rw [List.getElem?_eq_none hjM]
        simp

/-! ## C4 — vehicle selection -/

/-- The vehicle score as the claim words it: `max(0, 100 − distance to
pickup)` plus 50 if the organ's urgency exceeds 90 and the vehicle is a
`medical_helicopter`, plus 30 if the vehicle is an `ambulance`, plus
`speed_kmh / 10`. -/
def claimedScore (geo : Geo) (pickup_location : Location) (organ_data : OrganData)
    (vehicle : TransportVehicle) : ℚ :=
  max 0 (100 - geo (vehicle.current_location.lat, vehicle.current_location.lng)
      (pickup_location.lat, pickup_location.lng)) +
    (if organ_data.urgency.getD 50 > 90 ∧ vehicle.vehicle_type = "medical_helicopter"
      then 50 else 0) +
    (if vehicle.vehicle_type = "ambulance" then 30 else 0) +
    vehicle.speed_kmh / 10

/-- The code's score (an `elif` chain of bonuses) agrees with the claim's
score (two independent additive bonuses), because the two bonus conditions
are mutually exclusive. -/
theorem claimedScore_eq (geo : Geo) (pickup_location : Location)
    (organ_data : OrganData) (vehicle : TransportVehicle) :
    vehicleScore geo pickup_location organ_data vehicle =
      claimedScore geo pickup_location organ_data vehicle := by
  simp only [vehicleScore, claimedScore]
  by_cases h1 : organ_data.urgency.getD 50 > 90 ∧
      vehicle.vehicle_type = "medical_helicopter"
  · rw [if_pos h1, if_pos h1,
      if_neg (show ¬ vehicle.vehicle_type = "ambulance" by rw [h1.2]; decide)]
    ring
  · rw [if_neg h1, if_neg h1]
    by_cases h2 : vehicle.vehicle_type = "ambulance"
    · rw [if_pos h2]; ring
    · rw [if_neg h2]; ring

/-- The selector as the claim words it: among the available vehicles, the
first one (in registry order) whose score is maximal; the first fleet entry
when no vehicle is available. -/
def claimedSelect (geo : Geo) (fleet : List TransportVehicle)
    (pickup_location : Location) (organ_data : OrganData) :
    Option TransportVehicle :=
  match fleet.filter (·.available) with
  | [] => fleet.head?
  | a :: rest =>
    (a :: rest).find? (fun v => decide (∀ w ∈ a :: rest,
      claimedScore geo pickup_location organ_data w ≤
        claimedScore geo pickup_location organ_data v))

/-- Full characterisation of the scan loop: either no score beats the
running one and the running best is returned, or the returned vehicle is the
first list element realising the maximum score, which beats the running
score. -/
theorem selectLoop_characterization (score : TransportVehicle → ℚ) :
    ∀ (l : List TransportVehicle) (b : TransportVehicle) (s : ℚ),
    (selectLoop score l b s = b ∧ ∀ v ∈ l, score v ≤ s) ∨
    (∃ u l₁ l₂, selectLoop score l b s = u ∧ l = l₁ ++ u :: l₂ ∧ s < score u ∧
      (∀ w ∈ l, score w ≤ score u) ∧ (∀ w ∈ l₁, score w < score u)) := by
  intro l
  induction l with
  | nil => intro b s; exact Or.inl ⟨rfl, by simp⟩
  | cons v rest ih =>
    intro b s
    by_cases h : s < score v
    · have hloop : selectLoop score (v :: rest) b s = selectLoop score rest v (score v) := by
        simp only [selectLoop, if_pos h]
      rcases ih v (score v) with ⟨heq, hall⟩ | ⟨u, l₁, l₂, heq, hsplit, hlt, hmax, hfirst⟩
      · refine Or.inr ⟨v, [], rest, by rw [hloop, heq], by simp, h, ?_, by simp⟩
        intro w hw
        rcases List.mem_cons.mp hw with rfl | hw
        · exact le_refl _
        · exact hall w hw
      · refine Or.inr ⟨u, v :: l₁, l₂, by rw [hloop, heq], by rw [List.cons_append, hsplit],
          lt_trans h hlt, ?_, ?_⟩
        · intro w hw
          rcases List.mem_cons.mp hw with rfl | hw
          · exact le_of_lt hlt
          · exact hmax w hw
        · intro w hw
          rcases List.mem_cons.mp hw with rfl | hw
          · exact hlt
          · exact hfirst w hw
    · have hloop : selectLoop score (v :: rest) b s = selectLoop score rest b s := by
        simp only [selectLoop, if_neg h]
      push_neg at h
      rcases ih b s with ⟨heq, hall⟩ | ⟨u, l₁, l₂, heq, hsplit, hlt, hmax, hfirst⟩
      · refine Or.inl ⟨by rw [hloop, heq], ?_⟩
        intro w hw
        rcases List.mem_cons.mp hw with rfl | hw
        · exact h
        · exact hall w hw
      · refine Or.inr ⟨u, v :: l₁, l₂, by rw [hloop, heq], by rw [List.cons_append, hsplit],
          hlt, ?_, ?_⟩
        · intro w hw
          rcases List.mem_cons.mp hw with rfl | hw
          · exact le_of_lt (lt_of_le_of_lt h hlt)
          · exact hmax w hw
        · intro w hw
          rcases List.mem_cons.mp hw with rfl | hw
          · exact lt_of_le_of_lt h hlt
          · exact hfirst w hw

/-- `find?` returns the distinguished element of a split as soon as nothing
before it satisfies the predicate and it does. -/
theorem find?_append_middle {p : TransportVehicle → Bool} :
    ∀ (l₁ : List TransportVehicle) (u : TransportVehicle) (l₂ : List TransportVehicle),
    (∀ w ∈ l₁, p w = false) → p u = true →
    List.find? p (l₁ ++ u :: l₂) = some u := by
  intro l₁
  induction l₁ with
  | nil =>
    intro u l₂ _ hu
    simpa using List.find?_cons_of_pos l₂ hu
  | cons a t ih =>
    intro u l₂ hfalse hu
    rw [List.cons_append,
      List.find?_cons_of_neg _ (by simp [hfalse a (List.mem_cons_self a t)])]
    exact ih u l₂ (fun w hw => hfalse w (List.mem_cons_of_mem a hw)) hu

/-- C4: under the fleet's invariant that speeds are non-negative (every
registry vehicle's speed is positive), `_select_best_vehicle` returns
exactly what the claim describes — the highest-scoring available vehicle
with ties broken by first-seen registry order, the first fleet entry when no
vehicle is available. -/
theorem c4_select_best_vehicle (geo : Geo) (fleet : List TransportVehicle)
    (pickup_location : Location) (distance : ℚ) (organ_data : OrganData)
    (hspeed : ∀ v ∈ fleet, 0 ≤ v.speed_kmh) :
    select_best_vehicle geo fleet pickup_location distance organ_data =
      claimedSelect geo fleet pickup_location organ_data := by
  unfold select_best_vehicle claimedSelect
  cases h : fleet.filter (·.available) with
  | nil => rfl
  | cons a rest =>
    show some (selectLoop (vehicleScore geo pickup_location organ_data)
        (a :: rest) a 0) =
      (a :: rest).find? (fun v => decide (∀ w ∈ a :: rest,
        claimedScore geo pickup_location organ_data w ≤
          claimedScore geo pickup_location organ_data v))
    have hscore_nonneg : ∀ v ∈ a :: rest,
        0 ≤ vehicleScore geo pickup_location organ_data v := by
      intro v hv
      have hvf : v ∈ fleet := List.mem_of_mem_filter (h ▸ hv)
      unfold vehicleScore
      have h10 : (0 : ℚ) ≤ v.speed_kmh / 10 :=
        div_nonneg (hspeed v hvf) (by norm_num)
      have hb : (0 : ℚ) ≤
          (if organ_data.urgency.getD 50 > 90 ∧ v.vehicle_type = "medical_helicopter"
            then 50 else if v.vehicle_type = "ambulance" then 30 else 0) := by
        split
        · norm_num
        · split <;> norm_num
      have hm : (0 : ℚ) ≤
          max 0 (100 - geo (v.current_location.lat, v.current_location.lng)
            (pickup_location.lat, pickup_location.lng)) := le_max_left _ _
      linarith
    rcases selectLoop_characterization (vehicleScore geo pickup_location organ_data)
        (a :: rest) a 0 with ⟨heq, hall⟩ | ⟨u, l₁, l₂, heq, hsplit, _, hmax, hfirst⟩
    · rw [heq]
      have hpa : (fun v => decide (∀ w ∈ a :: rest,
          claimedScore geo pickup_location organ_data w ≤
            claimedScore geo pickup_location organ_data v)) a = true := by
        rw [decide_eq_true_eq]
        intro w hw
        rw [← claimedScore_eq, ← claimedScore_eq]
        exact le_trans (hall w hw)
          (hscore_nonneg a (List.mem_cons_self a rest))
      exact (List.find?_cons_of_pos rest hpa).symm
    · rw [heq, hsplit]
      refine (find?_append_middle l₁ u l₂ ?_ ?_).symm
      · intro w hw
        rw [decide_eq_false_iff_not]
        intro hforall
        have hu_mem : u ∈ l₁ ++ u :: l₂ :=
          List.mem_append_right l₁ (List.mem_cons_self u l₂)
        have hle := hforall u hu_mem
        rw [← claimedScore_eq, ← claimedScore_eq] at hle
        exact absurd hle (not_le.mpr (hfirst w hw))
      · rw [decide_eq_true_eq]
        intro w hw
        rw [← claimedScore_eq, ← claimedScore_eq]
        refine hmax w ?_
        rw [hsplit]
        exact hw

/-- Witness for C4 on the registry fleet (all speeds non-negative): for an
urgency-95 organ at the first hospital under a unit distance function, both
the code's selector and the claimed selector pick the helicopter `MED001`
stationed there. -/
theorem c4_select_best_vehicle_witness :
    select_best_vehicle geoOne vehicles hospitals[0] 1 ⟨none, none, some 95, none⟩ =
      claimedSelect geoOne vehicles hospitals[0] ⟨none, none, some 95, none⟩ :=
  c4_select_best_vehicle geoOne vehicles hospitals[0] 1 ⟨none, none, some 95, none⟩
    (by decide)

/-! ## C6 — planner error behaviour -/

/-- An unresolved hospital lookup is exactly the absence of any
case-insensitive substring match in the registry. -/
theorem find_hospital_eq_none (registry : List Location) (hospital_name : String) :
    find_hospital registry hospital_name = none ↔
      ∀ h ∈ registry, nameMatches hospital_name h.name = false := by
  simp only [find_hospital, List.find?_eq_none, Bool.not_eq_true]

/-- A non-empty fleet always yields a selected vehicle. -/
theorem select_best_vehicle_isSome (geo : Geo) (fleet : List TransportVehicle)
    (pickup_location : Location) (distance : ℚ) (organ_data : OrganData)
    (hfleet : fleet ≠ []) :
    ∃ v, select_best_vehicle geo fleet pickup_location distance organ_data = some v := by
  unfold select_best_vehicle
  cases hfa : fleet.filter (·.available) with
  | nil =>
    cases fleet with
    | nil => exact absurd rfl hfleet
    | cons f fs => exact ⟨f, rfl⟩
  | cons a rest => exact ⟨_, rfl⟩

/-- C6: `create_transport_plan` fails exactly when the pickup name or the
delivery name has no case-insensitive substring match among the registry
hospital names, and the only error it ever surfaces (over a non-empty fleet)
is the hospital-not-found input error. -/
theorem c6_planner_errors (env : ProviderEnv) (geo : Geo)
    (registry : List Location) (fleet : List TransportVehicle)
    (checkpoint_registry : List Location) (now : ℚ) (organ_data : OrganData)
    (pickup_hospital delivery_hospital : String)
    (hfleet : fleet ≠ []) :
    ((∃ e, create_transport_plan env geo registry fleet checkpoint_registry now
        organ_data pickup_hospital delivery_hospital = Except.error e) ↔
      ((∀ h ∈ registry, nameMatches pickup_hospital h.name = false) ∨
        (∀ h ∈ registry, nameMatches delivery_hospital h.name = false))) ∧
    (∀ e, create_transport_plan env geo registry fleet checkpoint_registry now
        organ_data pickup_hospital delivery_hospital = Except.error e →
      e = "Hospital not found in network") := by
  unfold create_transport_plan
  cases hp : find_hospital registry pickup_hospital with
  | none =>
    refine ⟨⟨fun _ => Or.inl ((find_hospital_eq_none registry pickup_hospital).mp hp),
      fun _ => ⟨_, rfl⟩⟩, ?_⟩
    intro e he
    injection he with h
    exact h.symm
  | some p =>
    cases hd : find_hospital registry delivery_hospital with
    | none =>
      refine ⟨⟨fun _ => Or.inr ((find_hospital_eq_none registry delivery_hospital).mp hd),
        fun _ => ⟨_, rfl⟩⟩, ?_⟩
      intro e he
      injection he with h
      exact h.symm
    | some d =>
      obtain ⟨v, hv⟩ := select_best_vehicle_isSome geo fleet p
        ((calc_pair env geo p d "driving").1) organ_data hfleet
      have hmem_p := List.mem_of_find?_eq_some hp
      have hmatch_p := List.find?_some hp
      have hmem_d := List.mem_of_find?_eq_some hd
      have hmatch_d := List.find?_some hd
      constructor
      · constructor
        · rintro ⟨e, he⟩
          dsimp only at he
          rw [show calculate_distance_and_time env geo p d "driving" =
              Except.ok (calc_pair env geo p d "driving") from rfl] at he
          dsimp only at he
          rw [hv] at he
          exact Except.noConfusion he
        · rintro (hc | hc)
          · rw [hc p hmem_p] at hmatch_p
            exact Bool.noConfusion hmatch_p
          · rw [hc d hmem_d] at hmatch_d
            exact Bool.noConfusion hmatch_d
      · intro e he
        dsimp only at he
        rw [show calculate_distance_and_time env geo p d "driving" =
            Except.ok (calc_pair env geo p d "driving") from rfl] at he
        dsimp only at he
        rw [hv] at he
        exact Except.noConfusion he

/-- Witness for C6 over the registry data: resolving two valid partial names
succeeds (no error), while a bogus delivery name fails with the
hospital-not-found error. -/
theorem c6_planner_errors_witness :
    (¬ ∃ e, create_transport_plan envNoKey geoOne hospitals vehicles checkpoints 0
      {} "City General" "Metro Medical" = Except.error e) ∧
    (∃ e, create_transport_plan envNoKey geoOne hospitals vehicles checkpoints 0
      {} "City General" "Nonexistent Clinic" = Except.error e) := by
  constructor
  · intro hcontra
    have h := (c6_planner_errors envNoKey geoOne hospitals vehicles checkpoints 0
      {} "City General" "Metro Medical" (by decide)).1.mp hcontra
    rcases h with h | h
    · have := h hospitals[0] (List.getElem_mem (by decide))
      rw [show nameMatches "City General" (hospitals[0]).name = true by decide] at this
      exact Bool.noConfusion this
    · have := h hospitals[1] (List.getElem_mem (by decide))
      rw [show nameMatches "Metro Medical" (hospitals[1]).name = true by decide] at this
      exact Bool.noConfusion this
  · exact (c6_planner_errors envNoKey geoOne hospitals vehicles checkpoints 0
      {} "City General" "Nonexistent Clinic" (by decide)).1.mpr
      (Or.inr (by decide))

/-- Witness for the amended C8: a 300-minute plan is reported with
`time_risk = "Medium"` yet `overall_risk = "Low"`. -/
theorem c8_amended_witness :
    (generate_route_report
        ⟨"ORG_W", "kidney",
          ⟨⟨"A", "a", 0, 0, ""⟩, ⟨"B", "b", 1, 1, ""⟩, 80, 300, []⟩,
          ⟨"VAN001", "medical_van", 60, true⟩, ⟨0, 300, 8, 30⟩,
          "planned"⟩).risk_assessment.time_risk = "Medium" ∧
    (generate_route_report
        ⟨"ORG_W", "kidney",
          ⟨⟨"A", "a", 0, 0, ""⟩, ⟨"B", "b", 1, 1, ""⟩, 80, 300, []⟩,
          ⟨"VAN001", "medical_van", 60, true⟩, ⟨0, 300, 8, 30⟩,
          "planned"⟩).risk_assessment.overall_risk = "Low" := by
  have h := c8_amended
    ⟨"ORG_W", "kidney",
      ⟨⟨"A", "a", 0, 0, ""⟩, ⟨"B", "b", 1, 1, ""⟩, 80, 300, []⟩,
      ⟨"VAN001", "medical_van", 60, true⟩, ⟨0, 300, 8, 30⟩, "planned"⟩
  exact ⟨h.2.1.mpr (by norm_num), h.2.2.2.2⟩

/-- Witness for the amended C9: the provider-less matrix over `[locA, locB]`
with the (symmetric) unit distance function is 2 × 2, has a zero diagonal
entry, and is symmetric in its off-diagonal pair. -/
theorem c9_amended_witness :
    (create_distance_matrix envNoKey geoOne [locA, locB]).length = 2 ∧
    (create_distance_matrix envNoKey geoOne [locA, locB])[0]?.bind
        (fun row => row[0]?) = some 0 ∧
    (create_distance_matrix envNoKey geoOne [locA, locB])[0]?.bind
        (fun row => row[1]?) =
      (create_distance_matrix envNoKey geoOne [locA, locB])[1]?.bind
        (fun row => row[0]?) := by
  have h := c9_amended envNoKey geoOne [locA, locB]
  exact ⟨h.1, h.2.2.1 0 (by norm_num), h.2.2.2.2 ⟨rfl, fun p q => rfl⟩ 0 1⟩

end LifeConnect
